import Mathlib

/-!
# Verification of the thread-bet Polymarket trading core

Shallow embedding of the order construction and validation pipeline of the
thread-bet repository:

* `polymarketTradePrecheck` embeds the precheck of
  `server/src/abilities/polymarket-trade.ts` (lines 147-239).
* `vincentAbilityPrecheck` embeds the precheck of the published Vincent
  ability variant (the `precheck` callback of `createVincentAbility`).
* `buildPolymarketOrder` embeds the order builder of
  `server/src/abilities/polymarket-trade.ts` (lines 251-333).
* `resolveApiCredentials` and `polymarketTradeExecute` embed the credential
  resolution and submission logic of `polymarketTradeExecute`
  (lines 342-504).
* `tradeCreate`, `tradeUpdateOrderId`, `tradeUpdateTxHash`, `tradeMarkFailed`
  embed the `TradeDB` ledger operations of `server/src/database.ts`.

Numeric values that the source holds as JavaScript numbers (prices, USDC
amounts, share counts) are embedded as exact rationals; the 6-decimal
fixed-point conversions of `ethers.utils.parseUnits` and `Number.toFixed(6)`
are modelled exactly (`parseUnits6`, `round6`).  Network effects (chain
reads, credential issuance, order posting) are passed in as `Except` values:
an `.error` input stands for the corresponding awaited call throwing, and
the embedding reproduces the source's `try`/`catch` structure on it.
-/

/-- Order side, from the ability schema (`side: "BUY" | "SELL"`). -/
inductive Side
  | BUY
  | SELL
  deriving DecidableEq, Repr

/-- `POLYMARKET_CONTRACTS.CTF_EXCHANGE` in `polymarket-trade.ts`. -/
def CTF_EXCHANGE : String := "0x4bFb41d5B3570DeFd03C39a9A4D8dE6Bd8B8982E"

/-- The null taker address used for open orders. -/
def ZERO_ADDRESS : String := "0x0000000000000000000000000000000000000000"

/-- `POLYGON_CHAIN_ID` in `polymarket-trade.ts`. -/
def POLYGON_CHAIN_ID : ℕ := 137

/-- The trade parameters accepted by the ability
(`abilityParams` in `polymarket-trade.ts`). -/
structure AbilityParams where
  tokenId : String
  side : Side
  price : ℚ
  amount : ℚ
  deriving DecidableEq, Repr

/-- The distinct failure reasons returned by `polymarketTradePrecheck`,
one constructor per `return` site, each carrying the numeric payload that
the source interpolates into its reason string. -/
inductive PrecheckReason
  | insufficientBalance (balance required : ℚ)
  | insufficientAllowance (allowance required : ℚ)
  | priceOutOfRange
  | precheckError (msg : String)
  deriving DecidableEq, Repr

/-- The optional `details` object of a precheck result. -/
structure PrecheckDetails where
  balance : Option ℚ
  allowance : Option ℚ
  required : Option ℚ
  deriving DecidableEq, Repr

/-- The result shape of `polymarketTradePrecheck`:
`{ allowed, reason?, details? }`. -/
structure PrecheckResult where
  allowed : Bool
  reason : Option PrecheckReason
  details : Option PrecheckDetails
  deriving DecidableEq, Repr

/-- Embedding of `polymarketTradePrecheck`
(`server/src/abilities/polymarket-trade.ts`, lines 147-239).

`bal` and `allow` are the results of the awaited on-chain reads
`checkUSDCBalance` / `checkUSDCAllowance`; an `.error` input stands for the
call throwing, which the source's `catch` turns into a
`Precheck failed: ...` result.  The source compares both the balance and
the allowance against `abilityParams.amount` regardless of `side`, then
validates the price bounds, in that order, returning at the first
failure. -/
def polymarketTradePrecheck (ap : AbilityParams)
    (bal allow : Except String ℚ) : PrecheckResult :=
  match bal with
  | .error e => ⟨false, some (.precheckError e), none⟩
  | .ok balance =>
    if balance < ap.amount then
      ⟨false, some (.insufficientBalance balance ap.amount),
        some ⟨some balance, none, some ap.amount⟩⟩
    else
      match allow with
      | .error e => ⟨false, some (.precheckError e), none⟩
      | .ok allowance =>
        if allowance < ap.amount then
          ⟨false, some (.insufficientAllowance allowance ap.amount),
            some ⟨none, some allowance, some ap.amount⟩⟩
        else if ap.price < 1/100 ∨ ap.price > 99/100 then
          ⟨false, some .priceOutOfRange, none⟩
        else
          ⟨true, none, some ⟨some balance, some allowance, some ap.amount⟩⟩

/-- Failure reasons of the Vincent-ability variant's precheck, one
constructor per `fail` site. -/
inductive VincentFailReason
  | missingPkpAddress
  | insufficientBalance
  | insufficientAllowance
  | precheckError (msg : String)
  deriving DecidableEq, Repr

/-- Result of the Vincent-ability variant's precheck: either the
`succeed` payload or a `fail` payload with optional numeric fields. -/
inductive VincentPrecheckResult
  | ok (usdcBalance usdcAllowance requiredAmount : ℚ)
      (hasBalance hasAllowance : Bool)
  | fail (reason : VincentFailReason)
      (usdcBalance usdcAllowance requiredAmount : Option ℚ)
  deriving DecidableEq, Repr

/-- Embedding of the `precheck` callback of the published Vincent ability
variant (`vincent-ability-polymarket`, `createVincentAbility({ precheck })`).

Both chain reads are awaited before any comparison; then
`requiredAmount = side === "BUY" ? amount : 0`, and the balance and
allowance are compared against `requiredAmount`. -/
def vincentAbilityPrecheck (pkpAddress : Option String) (side : Side)
    (amount : ℚ) (bal allow : Except String ℚ) : VincentPrecheckResult :=
  match pkpAddress with
  | none => .fail .missingPkpAddress none none none
  | some _ =>
    match bal with
    | .error e => .fail (.precheckError e) none none none
    | .ok usdcBalance =>
      match allow with
      | .error e => .fail (.precheckError e) none none none
      | .ok usdcAllowance =>
        let requiredAmount : ℚ := if side = .BUY then amount else 0
        let hasBalance : Bool := decide (requiredAmount ≤ usdcBalance)
        let hasAllowance : Bool := decide (requiredAmount ≤ usdcAllowance)
        if hasBalance = false then
          .fail .insufficientBalance
            (some usdcBalance) (some usdcAllowance) (some requiredAmount)
        else if hasAllowance = false then
          .fail .insufficientAllowance
            (some usdcBalance) (some usdcAllowance) (some requiredAmount)
        else
          .ok usdcBalance usdcAllowance requiredAmount hasBalance hasAllowance

/-- Exact embedding of `ethers.utils.parseUnits(x.toString(), 6)`: succeeds
with the 6-decimal fixed-point integer when `x` has at most 6 fractional
decimal digits, and throws (here: `none`) when the fractional component
exceeds 6 digits. -/
def parseUnits6 (q : ℚ) : Option ℤ :=
  if (q * 1000000).den = 1 then some (q * 1000000).num else none

/-- Embedding of `ethers.utils.parseUnits(x.toFixed(6), 6)`: `toFixed(6)`
rounds to the nearest 6-decimal value (half away from zero; all quantities
here are positive, so this is `round`), after which `parseUnits` is exact. -/
def round6 (q : ℚ) : ℤ := round (q * 1000000)

/-- The order structure built by `buildPolymarketOrder` (lines 291-304).
`makerAmount`/`takerAmount` are the stringified big numbers, kept as
integers here. -/
structure BuiltOrder where
  salt : ℤ
  maker : String
  signer : String
  taker : String
  tokenId : String
  makerAmount : ℤ
  takerAmount : ℤ
  expiration : ℕ
  nonce : ℤ
  feeRateBps : ℕ
  side : ℕ
  signatureType : ℕ
  deriving DecidableEq, Repr

/-- The EIP-712 signing domain built alongside each order (lines 307-312). -/
structure SigningDomain where
  name : String
  version : String
  chainId : ℕ
  verifyingContract : String
  deriving DecidableEq, Repr

/-- The constant domain value: every call of `buildPolymarketOrder`
returns exactly this domain. -/
def polymarketDomain : SigningDomain :=
  ⟨"Polymarket CTF Exchange", "1", POLYGON_CHAIN_ID, CTF_EXCHANGE⟩

/-- The fixed ordered EIP-712 field list (`types.Order`, lines 315-330). -/
def orderTypeSchema : List (String × String) :=
  [("salt", "uint256"), ("maker", "address"), ("signer", "address"),
   ("taker", "address"), ("tokenId", "uint256"), ("makerAmount", "uint256"),
   ("takerAmount", "uint256"), ("expiration", "uint256"),
   ("nonce", "uint256"), ("feeRateBps", "uint256"), ("side", "uint8"),
   ("signatureType", "uint8")]

/-- Parameters of `buildPolymarketOrder`. -/
structure OrderParams where
  tokenId : String
  side : Side
  price : ℚ
  amount : ℚ
  userAddress : String
  nonce : Option ℤ
  deriving DecidableEq, Repr

/-- Embedding of `buildPolymarketOrder`
(`server/src/abilities/polymarket-trade.ts`, lines 251-333).

The two nondeterministic inputs are passed explicitly: `salt` for
`Math.floor(Math.random() * 1000000000)` and `nowMs` for `Date.now()`
(milliseconds; `expiration` divides it by 1000 with `Math.floor`).

* BUY: `makerAmount = parseUnits(amount.toString(), 6)` (exact; throws on
  more than 6 fractional digits, modelled as `none`),
  `takerAmount = parseUnits((amount / price).toFixed(6), 6)`.
* SELL: `makerAmount = parseUnits(amount.toString(), 6)`,
  `takerAmount = parseUnits((amount * price).toFixed(6), 6)`.
* `nonce: nonce || Date.now()` — JavaScript `||` treats `0` and an absent
  argument alike, both falling back to `Date.now()`. -/
def buildPolymarketOrder (p : OrderParams) (salt : ℤ) (nowMs : ℕ) :
    Option (BuiltOrder × SigningDomain × List (String × String)) :=
  let legs : Option (ℤ × ℤ) :=
    match p.side with
    | .BUY =>
      match parseUnits6 p.amount with
      | none => none
      | some usdcBN => some (usdcBN, round6 (p.amount / p.price))
    | .SELL =>
      match parseUnits6 p.amount with
      | none => none
      | some sharesBN => some (sharesBN, round6 (p.amount * p.price))
  match legs with
  | none => none
  | some (makerAmount, takerAmount) =>
    let orderNonce : ℤ :=
      match p.nonce with
      | some n => if n = 0 then (nowMs : ℤ) else n
      | none => (nowMs : ℤ)
    some (⟨salt, p.userAddress, p.userAddress, ZERO_ADDRESS, p.tokenId,
           makerAmount, takerAmount, nowMs / 1000 + 86400, orderNonce, 0,
           (match p.side with | .BUY => 0 | .SELL => 1), 0⟩,
          polymarketDomain, orderTypeSchema)

/-- A complete `{key, secret, passphrase}` credential triple. -/
structure ApiCreds where
  key : String
  secret : String
  passphrase : String
  deriving DecidableEq, Repr

/-- The caller-supplied cached credentials (`params.userParams`); each
field is optional. -/
structure UserParams where
  polymarketApiKey : Option String
  polymarketApiSecret : Option String
  polymarketApiPassphrase : Option String
  deriving DecidableEq, Repr

/-- The raw response of `clobClient.createApiKey()`; the source checks
each field for presence before accepting it. -/
structure RawApiKeyResponse where
  key : Option String
  secret : Option String
  passphrase : Option String
  deriving DecidableEq, Repr

/-- Embedding of the credential-resolution block of
`polymarketTradeExecute` (lines 371-446).

* `env` stands for `process.env.CLOB_API_KEY && CLOB_SECRET &&
  CLOB_PASS_PHRASE`: `some` means all three are set to truthy values.
* `createApiKeyResult` is the outcome of the awaited
  `tempClient.createApiKey()` network call.

Returns the resolved credentials (or the thrown error message) together
with a flag recording whether the credential-creation network call was
made.  The source stores newly created credentials nowhere: no cache,
database or user-params write-back exists on this path. -/
def resolveApiCredentials (env : Option ApiCreds)
    (userParams : Option UserParams)
    (createApiKeyResult : Except String RawApiKeyResponse) :
    Except String ApiCreds × Bool :=
  match env with
  | some e => (.ok e, false)
  | none =>
    let key? := (userParams.map (·.polymarketApiKey)).join
    let secret? := (userParams.map (·.polymarketApiSecret)).join
    let pass? := (userParams.map (·.polymarketApiPassphrase)).join
    match key?, secret? with
    | some k, some s =>
      -- cached credentials accepted when key and secret are present;
      -- the final verification (lines 439-446) still requires the
      -- passphrase and throws otherwise
      match pass? with
      | some p => (.ok ⟨k, s, p⟩, false)
      | none => (.error "Missing API credentials - cannot proceed with trade",
                 false)
    | _, _ =>
      match createApiKeyResult with
      | .error e =>
        (.error ("Failed to create Polymarket API key: " ++ e), true)
      | .ok raw =>
        match raw.key, raw.secret, raw.passphrase with
        | some k, some s, some p => (.ok ⟨k, s, p⟩, true)
        | _, _, _ =>
          (.error ("Failed to create Polymarket API key: " ++
                   "API key creation returned invalid credentials"), true)

/-- The experiment of the spec's idempotence property: run credential
resolution twice for the same identity and count the credential-creation
network calls.  Because `polymarketTradeExecute` writes the created
credentials to no store, the second run sees exactly the same `env` and
`userParams` as the first. -/
def resolveApiCredentialsTwice (env : Option ApiCreds)
    (userParams : Option UserParams)
    (c1 c2 : Except String RawApiKeyResponse) : ℕ :=
  let r1 := resolveApiCredentials env userParams c1
  let r2 := resolveApiCredentials env userParams c2
  (cond r1.2 1 0) + (cond r2.2 1 0)

/-- The result shape of `polymarketTradeExecute`:
`{ success, orderId?, error? }`. -/
structure ExecuteResult where
  success : Bool
  orderId : Option String
  error : Option String
  deriving DecidableEq, Repr

/-- The order argument handed to `clobClient.createAndPostOrder`
(lines 472-477). -/
structure UserOrder where
  tokenID : String
  price : ℚ
  size : ℚ
  side : Side
  deriving DecidableEq, Repr

/-- Embedding of `polymarketTradeExecute`
(`server/src/abilities/polymarket-trade.ts`, lines 342-504).

`postOrderResult` is the outcome of the awaited
`clobClient.createAndPostOrder` call (`.ok orderID` on acceptance).  The
second component of the result is the `userOrder` passed to
`createAndPostOrder`, or `none` when execution failed before reaching the
submission call.  The whole body sits in a `try`/`catch` whose `catch`
returns `{ success: false, error }`; the function performs no price or
side validation of its own and never invokes the precheck. -/
def polymarketTradeExecute (ap : AbilityParams) (env : Option ApiCreds)
    (userParams : Option UserParams)
    (createApiKeyResult : Except String RawApiKeyResponse)
    (postOrderResult : Except String String) :
    ExecuteResult × Option UserOrder :=
  match (resolveApiCredentials env userParams createApiKeyResult).1 with
  | .error e => (⟨false, none, some e⟩, none)
  | .ok _creds =>
    let shares : ℚ := if ap.side = .BUY then ap.amount / ap.price else ap.amount
    let userOrder : UserOrder := ⟨ap.tokenId, ap.price, shares, ap.side⟩
    match postOrderResult with
    | .error e => (⟨false, none, some e⟩, some userOrder)
    | .ok orderID => (⟨true, some orderID, none⟩, some userOrder)

/-- Trade lifecycle status (`status TEXT DEFAULT 'pending'` in the
`trades` table). -/
inductive TradeStatus
  | pending
  | confirmed
  | failed
  deriving DecidableEq, Repr

/-- A row of the `trades` table (`server/src/database.ts`). -/
structure TradeRow where
  id : ℕ
  userId : ℕ
  marketId : String
  tokenId : String
  side : Side
  amount : ℚ
  price : ℚ
  shares : ℚ
  orderId : Option String
  txHash : Option String
  status : TradeStatus
  errorMessage : Option String
  deriving DecidableEq, Repr

/-- Embedding of `TradeDB.create`: inserts a row with
`status = 'pending'` and a fresh autoincremented id, returning the new
table and the inserted row. -/
def tradeCreate (s : List TradeRow) (userId : ℕ) (marketId tokenId : String)
    (side : Side) (amount price shares : ℚ) : List TradeRow × TradeRow :=
  let row : TradeRow :=
    ⟨s.length + 1, userId, marketId, tokenId, side, amount, price, shares,
     none, none, .pending, none⟩
  (s ++ [row], row)

/-- Embedding of `TradeDB.updateOrderId`:
`UPDATE trades SET order_id = ?, status = 'confirmed' WHERE id = ?` —
unconditional on the current status. -/
def tradeUpdateOrderId (s : List TradeRow) (tradeId : ℕ)
    (orderId : String) : List TradeRow :=
  s.map (fun r =>
    if r.id = tradeId then
      { r with orderId := some orderId, status := .confirmed }
    else r)

/-- Embedding of `TradeDB.updateTxHash`:
`UPDATE trades SET tx_hash = ?, status = 'confirmed' WHERE id = ?`. -/
def tradeUpdateTxHash (s : List TradeRow) (tradeId : ℕ)
    (txHash : String) : List TradeRow :=
  s.map (fun r =>
    if r.id = tradeId then
      { r with txHash := some txHash, status := .confirmed }
    else r)

/-- Embedding of `TradeDB.markFailed`:
`UPDATE trades SET status = 'failed', error_message = ? WHERE id = ?`. -/
def tradeMarkFailed (s : List TradeRow) (tradeId : ℕ)
    (errorMessage : String) : List TradeRow :=
  s.map (fun r =>
    if r.id = tradeId then
      { r with status := .failed, errorMessage := some errorMessage }
    else r)

/-- Embedding of `TradeDB.getById`. -/
def tradeGetById (s : List TradeRow) (tradeId : ℕ) : Option TradeRow :=
  s.find? (fun r => r.id == tradeId)

/-! ### Helper lemmas -/

/-- `parseUnits` is exact: on a value with at most 6 fractional decimal
digits it agrees with rounding to 6 decimals. -/
lemma round6_eq_num_of_den_eq_one (q : ℚ) (h : (q * 1000000).den = 1) :
    round6 q = (q * 1000000).num := by
  have h2 : ((q * 1000000).num : ℚ) = q * 1000000 :=
    (Rat.den_eq_one_iff _).mp h
  have h3 := round_intCast (α := ℚ) ((q * 1000000).num)
  rw [h2] at h3
  rw [round6, h3]

/-- Inversion of a successful `buildPolymarketOrder` call: every field of
the produced order, the domain and the type schema in terms of the
inputs. -/
lemma buildPolymarketOrder_inv (p : OrderParams) (salt : ℤ) (nowMs : ℕ)
    (ord : BuiltOrder) (dom : SigningDomain) (ts : List (String × String))
    (h : buildPolymarketOrder p salt nowMs = some (ord, dom, ts)) :
    dom = polymarketDomain ∧ ts = orderTypeSchema ∧
    ord.salt = salt ∧ ord.maker = p.userAddress ∧
    ord.signer = p.userAddress ∧ ord.taker = ZERO_ADDRESS ∧
    ord.tokenId = p.tokenId ∧ ord.expiration = nowMs / 1000 + 86400 ∧
    ord.nonce = (match p.nonce with
                 | some n => if n = 0 then (nowMs : ℤ) else n
                 | none => (nowMs : ℤ)) ∧
    ord.feeRateBps = 0 ∧
    ord.side = (match p.side with | .BUY => 0 | .SELL => 1) ∧
    ord.signatureType = 0 ∧
    parseUnits6 p.amount = some ord.makerAmount ∧
    (p.side = .BUY → ord.takerAmount = round6 (p.amount / p.price)) ∧
    (p.side = .SELL → ord.takerAmount = round6 (p.amount * p.price)) := by
  cases hside : p.side <;>
    simp only [buildPolymarketOrder, hside] at h <;>
    cases hpu : parseUnits6 p.amount <;> rw [hpu] at h <;>
    simp only [reduceCtorEq] at h <;>
    obtain ⟨h1, h2, h3⟩ := Prod.mk.injEq .. ▸ Option.some.injEq .. ▸ h <;>
    subst h1 <;>
    simp_all

/-- A successful `buildPolymarketOrder` call exists as soon as the amount
has at most 6 fractional digits, with the side-dependent legs. -/
lemma buildPolymarketOrder_some (p : OrderParams) (salt : ℤ) (nowMs : ℕ)
    (hden : (p.amount * 1000000).den = 1) :
    ∃ ord, buildPolymarketOrder p salt nowMs =
        some (ord, polymarketDomain, orderTypeSchema) ∧
      ord.makerAmount = round6 p.amount ∧
      (p.side = .BUY → ord.takerAmount = round6 (p.amount / p.price)) ∧
      (p.side = .SELL → ord.takerAmount = round6 (p.amount * p.price)) := by
  have hpu : parseUnits6 p.amount = some ((p.amount * 1000000).num) := by
    simp [parseUnits6, hden]
  have hnum := round6_eq_num_of_den_eq_one p.amount hden
  cases hside : p.side
  case BUY =>
    refine ⟨⟨salt, p.userAddress, p.userAddress, ZERO_ADDRESS, p.tokenId,
      (p.amount * 1000000).num, round6 (p.amount / p.price),
      nowMs / 1000 + 86400,
      (match p.nonce with
       | some n => if n = 0 then (nowMs : ℤ) else n
       | none => (nowMs : ℤ)), 0, 0, 0⟩, ?_, ?_, ?_, ?_⟩
    · simp only [buildPolymarketOrder, hside, hpu]
    · exact hnum.symm
    · intro _; rfl
    · intro hS; cases hS
  case SELL =>
    refine ⟨⟨salt, p.userAddress, p.userAddress, ZERO_ADDRESS, p.tokenId,
      (p.amount * 1000000).num, round6 (p.amount * p.price),
      nowMs / 1000 + 86400,
      (match p.nonce with
       | some n => if n = 0 then (nowMs : ℤ) else n
       | none => (nowMs : ℤ)), 0, 1, 0⟩, ?_, ?_, ?_, ?_⟩
    · simp only [buildPolymarketOrder, hside, hpu]
    · exact hnum.symm
    · intro hS; cases hS
    · intro _; rfl

/-! ### C1: side-dependent maker/taker legs -/

/-- C1 counterexample: the claim quantifies over every amount > 0, but for
an amount with more than 6 fractional decimal digits (here 0.1234567,
which satisfies amount > 0 and price in bounds) the builder does not
assign any legs at all: `parseUnits(amount.toString(), 6)` rejects the
excess precision and the build throws. -/
theorem C1_counterexample :
    (0:ℚ) < 1234567/10000000 ∧ (1:ℚ)/100 ≤ 65/100 ∧ (65/100:ℚ) ≤ 99/100 ∧
    buildPolymarketOrder ⟨"T", .BUY, 65/100, 1234567/10000000, "0xA", none⟩
      0 0 = none := by
  refine ⟨by norm_num, by norm_num, by norm_num, ?_⟩
  simp only [buildPolymarketOrder, parseUnits6]
  norm_num

/-- C1 (amended): for every intent with price in [0.01, 0.99] and
amount > 0 that carries at most 6 fractional decimal digits, the Order
Builder assigns the legs side-dependently — BUY: makerAmount = round6
amount, takerAmount = round6 (amount / price); SELL: makerAmount = round6
amount, takerAmount = round6 (amount * price) — and in particular BUY with
amount 10 at price 0.65 yields 10000000 / 15384615 and SELL with amount 20
at price 0.70 yields 20000000 / 14000000. -/
theorem C1_order_builder_legs :
    (∀ (p : OrderParams) (salt : ℤ) (nowMs : ℕ),
      1/100 ≤ p.price → p.price ≤ 99/100 → 0 < p.amount →
      (p.amount * 1000000).den = 1 →
      ∃ ord, buildPolymarketOrder p salt nowMs =
          some (ord, polymarketDomain, orderTypeSchema) ∧
        ord.makerAmount = round6 p.amount ∧
        (p.side = .BUY → ord.takerAmount = round6 (p.amount / p.price)) ∧
        (p.side = .SELL → ord.takerAmount = round6 (p.amount * p.price))) ∧
    ((buildPolymarketOrder ⟨"T", .BUY, 65/100, 10, "0xA", none⟩ 0 0).map
        (fun x => (x.1.makerAmount, x.1.takerAmount)) =
      some (10000000, 15384615)) ∧
    ((buildPolymarketOrder ⟨"T", .SELL, 7/10, 20, "0xB", none⟩ 0 0).map
        (fun x => (x.1.makerAmount, x.1.takerAmount)) =
      some (20000000, 14000000)) := by
  refine ⟨fun p salt nowMs _ _ _ hden =>
    buildPolymarketOrder_some p salt nowMs hden, ?_, ?_⟩
  · simp only [buildPolymarketOrder, parseUnits6, round6]
    norm_num [round_eq]
  · simp only [buildPolymarketOrder, parseUnits6, round6]
    norm_num [round_eq]

/-- C1 witness: the amended theorem applied at BUY, price 0.65,
amount 10. -/
theorem C1_order_builder_legs_witness :
    (1:ℚ)/100 ≤ 65/100 ∧ (65/100:ℚ) ≤ 99/100 ∧ (0:ℚ) < 10 ∧
    ((10:ℚ) * 1000000).den = 1 ∧
    ∃ ord, buildPolymarketOrder ⟨"W", .BUY, 65/100, 10, "0xC", none⟩ 3 5 =
        some (ord, polymarketDomain, orderTypeSchema) ∧
      ord.makerAmount = round6 10 ∧
      ((Side.BUY = Side.BUY) → ord.takerAmount = round6 ((10:ℚ) / (65/100))) ∧
      ((Side.BUY = Side.SELL) → ord.takerAmount = round6 ((10:ℚ) * (65/100))) :=
  ⟨by norm_num, by norm_num, by norm_num, by norm_num,
   C1_order_builder_legs.1 ⟨"W", .BUY, 65/100, 10, "0xC", none⟩ 3 5
     (by norm_num) (by norm_num) (by norm_num) (by norm_num)⟩

/-! ### C3: positive legs and BUY round-trip -/

/-- Auxiliary bound: a rational at least 1 rounds to an integer at
least 1. -/
lemma one_le_round_of_one_le (x : ℚ) (hx : 1 ≤ x) : 1 ≤ round x := by
  rw [round_eq]
  exact Int.le_floor.mpr (by push_cast; linarith)

/-- C3 counterexample: as stated the claim fails twice over.  A SELL
intent with amount 0.000001 (amount > 0) at price 0.01 builds an order
whose takerAmount is 0, not positive; and at the BUY example
(amount 10, price 0.65, makerAmount 10000000, takerAmount 15384615) the
claimed round-trip quotient `takerAmount / price` misses makerAmount by
more than 1000000 six-decimal units (more than 1 whole USDC), so it holds
under no rounding tolerance. -/
theorem C3_counterexample :
    ((buildPolymarketOrder ⟨"T", .SELL, 1/100, 1/1000000, "0xA", none⟩ 0 0).map
        (fun x => x.1.takerAmount) = some 0) ∧
    ((buildPolymarketOrder ⟨"T", .BUY, 65/100, 10, "0xA", none⟩ 0 0).map
        (fun x => (x.1.makerAmount, x.1.takerAmount)) =
      some (10000000, 15384615)) ∧
    ¬ |(15384615:ℚ) / (65/100) - 10000000| ≤ 1000000 := by
  refine ⟨?_, ?_, ?_⟩
  · simp only [buildPolymarketOrder, parseUnits6, round6]
    norm_num [round_eq]
  · simp only [buildPolymarketOrder, parseUnits6, round6]
    norm_num [round_eq]
  · rw [abs_sub_comm, abs_of_nonpos (by norm_num)]
    norm_num

/-- C3 (amended): for every intent with price in [0.01, 0.99] and
amount ≥ 1 (the schema's declared minimum) for which the builder produces
an order, both legs are positive, and for BUY the round-trip
`takerAmount * price ≈ makerAmount` holds within one six-decimal unit
(the spec's quotient form is replaced by the product, which is what the
leg construction actually inverts). -/
theorem C3_positive_legs_roundtrip :
    ∀ (p : OrderParams) (salt : ℤ) (nowMs : ℕ) (ord : BuiltOrder)
      (dom : SigningDomain) (ts : List (String × String)),
      buildPolymarketOrder p salt nowMs = some (ord, dom, ts) →
      1/100 ≤ p.price → p.price ≤ 99/100 → 1 ≤ p.amount →
      0 < ord.makerAmount ∧ 0 < ord.takerAmount ∧
      (p.side = .BUY →
        |(ord.takerAmount : ℚ) * p.price - (ord.makerAmount : ℚ)| ≤ 1) := by
  intro p salt nowMs ord dom ts h h01 h99 h1
  obtain ⟨_, _, _, _, _, _, _, _, _, _, _, _, hpu, hbuy, hsell⟩ :=
    buildPolymarketOrder_inv p salt nowMs ord dom ts h
  have hden : (p.amount * 1000000).den = 1 := by
    by_contra hc
    simp [parseUnits6, hc] at hpu
  have hmk : ord.makerAmount = (p.amount * 1000000).num := by
    simp only [parseUnits6, hden, if_pos] at hpu
    exact (Option.some.injEq .. ▸ hpu).symm
  have hAQ : ((ord.makerAmount : ℚ)) = p.amount * 1000000 := by
    rw [hmk]
    exact (Rat.den_eq_one_iff _).mp hden
  have hprice0 : (0:ℚ) < p.price := lt_of_lt_of_le (by norm_num) h01
  have hmpos : 0 < ord.makerAmount := by
    rw [hmk]
    exact Rat.num_pos.mpr (by nlinarith)
  refine ⟨hmpos, ?_, ?_⟩
  · cases hside : p.side
    case BUY =>
      rw [hbuy hside, round6]
      have hq : 1 ≤ p.amount / p.price :=
        (one_le_div hprice0).mpr (le_trans (le_trans h99 (by norm_num)) h1)
      exact lt_of_lt_of_le one_pos
        (one_le_round_of_one_le _ (by nlinarith))
    case SELL =>
      rw [hsell hside, round6]
      have hq : 1/100 ≤ p.amount * p.price := by nlinarith
      exact lt_of_lt_of_le one_pos
        (one_le_round_of_one_le _ (by nlinarith))
  · intro hside
    rw [hbuy hside, round6, hAQ]
    set x : ℚ := p.amount / p.price * 1000000 with hx
    have hxp : x * p.price = p.amount * 1000000 := by
      field_simp [hx]
    have hr := abs_sub_round x
    calc |((round x : ℚ)) * p.price - p.amount * 1000000|
        = |((round x : ℚ) - x) * p.price| := by rw [sub_mul, hxp]
      _ = |(round x : ℚ) - x| * |p.price| := abs_mul _ _
      _ = |x - (round x : ℚ)| * p.price := by
          rw [abs_sub_comm, abs_of_pos hprice0]
      _ ≤ (1/2) * p.price := by
          exact mul_le_mul_of_nonneg_right hr (le_of_lt hprice0)
      _ ≤ 1 := by nlinarith

/-- C3 witness: the amended theorem applied at SELL, price 0.70,
amount 20. -/
theorem C3_positive_legs_roundtrip_witness :
    (0:ℤ) < 20000000 ∧ (0:ℤ) < 14000000 ∧
    (Side.SELL = Side.BUY →
      |(14000000:ℚ) * (7/10) - (20000000:ℚ)| ≤ 1) :=
  C3_positive_legs_roundtrip ⟨"T", .SELL, 7/10, 20, "0xB", none⟩ 0 0
    ⟨0, "0xB", "0xB", ZERO_ADDRESS, "T", 20000000, 14000000, 86400, 0, 0, 1, 0⟩
    polymarketDomain orderTypeSchema
    (by simp only [buildPolymarketOrder, parseUnits6, round6]
        norm_num [round_eq])
    (by norm_num) (by norm_num) (by norm_num)

/-! ### C2: required amount and the BUY/SELL asymmetry -/

/-- C2 counterexample: in the server's `polymarketTradePrecheck` a SELL
intent is checked against the full `amount` exactly like a BUY: with
side = SELL, amount = 10, queried balance 5 and allowance 100, the
precheck fails on the balance comparison, which the claim says can never
happen for SELL. -/
theorem C2_counterexample :
    polymarketTradePrecheck ⟨"T", .SELL, 1/2, 10⟩ (.ok 5) (.ok 100) =
      ⟨false, some (.insufficientBalance 5 10), some ⟨some 5, none, some 10⟩⟩ := by
  simp only [polymarketTradePrecheck]
  norm_num

/-- C2 (amended): the published Vincent-ability precheck computes
required = amount for BUY and 0 for SELL, so there a SELL intent with
nonnegative queried balance and allowance never fails either comparison;
the server's `polymarketTradePrecheck`, however, compares balance (and
allowance) against `intent.amount` for both sides, so a SELL intent fails
its balance comparison whenever balance < amount. -/
theorem C2_required_amount :
    (∀ (pk : String) (amount bal allow : ℚ),
      0 ≤ bal → 0 ≤ allow →
      vincentAbilityPrecheck (some pk) .SELL amount (.ok bal) (.ok allow) =
        .ok bal allow 0 true true) ∧
    (∀ (pk : String) (amount bal allow : ℚ),
      amount ≤ bal → amount ≤ allow →
      vincentAbilityPrecheck (some pk) .BUY amount (.ok bal) (.ok allow) =
        .ok bal allow amount true true) ∧
    (∀ (pk : String) (amount bal allow : ℚ),
      bal < amount →
      vincentAbilityPrecheck (some pk) .BUY amount (.ok bal) (.ok allow) =
        .fail .insufficientBalance (some bal) (some allow) (some amount)) ∧
    (∀ (ap : AbilityParams) (bal allow : ℚ),
      bal < ap.amount →
      polymarketTradePrecheck ap (.ok bal) (.ok allow) =
        ⟨false, some (.insufficientBalance bal ap.amount),
          some ⟨some bal, none, some ap.amount⟩⟩) := by
  refine ⟨?_, ?_, ?_, ?_⟩
  · intro pk amount bal allow hb ha
    simp [vincentAbilityPrecheck, hb, ha]
  · intro pk amount bal allow hb ha
    simp [vincentAbilityPrecheck, hb, ha]
  · intro pk amount bal allow hb
    simp [vincentAbilityPrecheck, not_le.mpr hb]
  · intro ap bal allow hb
    simp [polymarketTradePrecheck, hb]

/-- C2 witness: the amended theorem applied for SELL with balance 7,
allowance 3, amount 10 on the Vincent variant, and for SELL with
balance 5, amount 10 on the server variant. -/
theorem C2_required_amount_witness :
    (vincentAbilityPrecheck (some "0xPK") .SELL 10 (.ok 7) (.ok 3) =
      .ok 7 3 0 true true) ∧
    (polymarketTradePrecheck ⟨"T2", .SELL, 3/10, 10⟩ (.ok 5) (.ok 3) =
      ⟨false, some (.insufficientBalance 5 10),
        some ⟨some 5, none, some 10⟩⟩) :=
  ⟨C2_required_amount.1 "0xPK" 10 7 3 (by norm_num) (by norm_num),
   C2_required_amount.2.2.2 ⟨"T2", .SELL, 3/10, 10⟩ 5 3 (by norm_num)⟩

/-! ### C4: check ordering — balance, then allowance, then price -/

/-- C4 (confirmed): the server precheck short-circuits in the fixed order
balance, allowance, price: when the balance query fails the comparison the
result is the balance reason regardless of the allowance outcome, and when
the balance suffices but the allowance does not, the result is exactly the
allowance failure (the one whose reason tells the user to approve USDC
first), never the balance reason, regardless of the price. -/
theorem C4_balance_then_allowance_then_price :
    (∀ (ap : AbilityParams) (allow : Except String ℚ) (b : ℚ),
      b < ap.amount →
      polymarketTradePrecheck ap (.ok b) allow =
        ⟨false, some (.insufficientBalance b ap.amount),
          some ⟨some b, none, some ap.amount⟩⟩) ∧
    (∀ (ap : AbilityParams) (b a : ℚ),
      ap.amount ≤ b → a < ap.amount →
      polymarketTradePrecheck ap (.ok b) (.ok a) =
        ⟨false, some (.insufficientAllowance a ap.amount),
          some ⟨none, some a, some ap.amount⟩⟩) := by
  refine ⟨?_, ?_⟩
  · intro ap allow b hb
    simp [polymarketTradePrecheck, hb]
  · intro ap b a hb ha
    simp [polymarketTradePrecheck, not_lt.mpr hb, ha]

/-- C4 witness: balance 20, allowance 5, required amount 10 fails
specifically on the allowance. -/
theorem C4_balance_then_allowance_then_price_witness :
    polymarketTradePrecheck ⟨"T", .BUY, 1/2, 10⟩ (.ok 20) (.ok 5) =
      ⟨false, some (.insufficientAllowance 5 10),
        some ⟨none, some 5, some 10⟩⟩ :=
  C4_balance_then_allowance_then_price.2 ⟨"T", .BUY, 1/2, 10⟩ 20 5
    (by norm_num) (by norm_num)

/-! ### C5: all failures are structured results, never unhandled faults -/

/-- C5 (confirmed): both entry points of the ability are total functions
into structured results.  Every disallowed precheck carries a reason;
a throwing balance or allowance read (network failure) is caught and
surfaced as a `Precheck failed` reason; every unsuccessful execute carries
an error string; and a throwing submission call is caught and surfaced as
the execute error. -/
theorem C5_structured_failure_results :
    (∀ (ap : AbilityParams) (bal allow : Except String ℚ),
      (polymarketTradePrecheck ap bal allow).allowed = false →
      ((polymarketTradePrecheck ap bal allow).reason).isSome = true) ∧
    (∀ (ap : AbilityParams) (e : String) (allow : Except String ℚ),
      polymarketTradePrecheck ap (.error e) allow =
        ⟨false, some (.precheckError e), none⟩) ∧
    (∀ (ap : AbilityParams) (b : ℚ) (e : String),
      ap.amount ≤ b →
      polymarketTradePrecheck ap (.ok b) (.error e) =
        ⟨false, some (.precheckError e), none⟩) ∧
    (∀ (ap : AbilityParams) (env : Option ApiCreds) (up : Option UserParams)
       (cr : Except String RawApiKeyResponse) (post : Except String String),
      (polymarketTradeExecute ap env up cr post).1.success = false →
      ((polymarketTradeExecute ap env up cr post).1.error).isSome = true) ∧
    (∀ (ap : AbilityParams) (c : ApiCreds) (up : Option UserParams)
       (cr : Except String RawApiKeyResponse) (e : String),
      (polymarketTradeExecute ap (some c) up cr (.error e)).1 =
        ⟨false, none, some e⟩) := by
  refine ⟨?_, ?_, ?_, ?_, ?_⟩
  · intro ap bal allow
    cases bal with
    | error e => simp [polymarketTradePrecheck]
    | ok b =>
      cases allow with
      | error e =>
        simp only [polymarketTradePrecheck]
        split_ifs <;> simp
      | ok a =>
        simp only [polymarketTradePrecheck]
        split_ifs <;> simp
  · intro ap e allow
    simp [polymarketTradePrecheck]
  · intro ap b e hb
    simp [polymarketTradePrecheck, not_lt.mpr hb]
  · intro ap env up cr post
    rcases hres : (resolveApiCredentials env up cr).1 with e | c
    · simp [polymarketTradeExecute, hres]
    · cases post <;> simp [polymarketTradeExecute, hres]
  · intro ap c up cr e
    simp [polymarketTradeExecute, resolveApiCredentials]

/-- C5 witness: a BUY intent with sufficient balance whose allowance read
throws yields a structured precheck refusal. -/
theorem C5_structured_failure_results_witness :
    polymarketTradePrecheck ⟨"T", .BUY, 1/2, 10⟩ (.ok 20) (.error "rpc down") =
      ⟨false, some (.precheckError "rpc down"), none⟩ :=
  C5_structured_failure_results.2.2.1 ⟨"T", .BUY, 1/2, 10⟩ 20 "rpc down"
    (by norm_num)

/-! ### C6: fixed structural fields and constant signing domain -/

/-- C6 (confirmed): every order the builder produces has taker = zero
address, feeRateBps = 0, signatureType = 0, side encoded 0 for BUY and 1
for SELL, expiration = build-time unix timestamp + 86400 s, and the
returned signing domain is the one constant
{Polymarket CTF Exchange, "1", 137, CTF exchange address}, independent of
the intent. -/
theorem C6_fixed_structural_fields :
    ∀ (p : OrderParams) (salt : ℤ) (nowMs : ℕ) (ord : BuiltOrder)
      (dom : SigningDomain) (ts : List (String × String)),
      buildPolymarketOrder p salt nowMs = some (ord, dom, ts) →
      ord.taker = ZERO_ADDRESS ∧ ord.feeRateBps = 0 ∧
      ord.signatureType = 0 ∧
      (p.side = .BUY → ord.side = 0) ∧ (p.side = .SELL → ord.side = 1) ∧
      ord.expiration = nowMs / 1000 + 86400 ∧
      dom = ⟨"Polymarket CTF Exchange", "1", 137, CTF_EXCHANGE⟩ := by
  intro p salt nowMs ord dom ts h
  obtain ⟨hdom, _, _, _, _, htaker, _, hexp, _, hfee, hside, hsig, _, _, _⟩ :=
    buildPolymarketOrder_inv p salt nowMs ord dom ts h
  refine ⟨htaker, hfee, hsig, ?_, ?_, hexp, hdom⟩ <;>
    intro hs <;> rw [hside, hs]

/-- C6 witness: the theorem applied to a concrete BUY order built at
salt 11, build time 2500 ms. -/
theorem C6_fixed_structural_fields_witness :
    ZERO_ADDRESS = ZERO_ADDRESS ∧ (0:ℕ) = 0 ∧ (0:ℕ) = 0 ∧
    (Side.BUY = Side.BUY → (0:ℕ) = 0) ∧ (Side.BUY = Side.SELL → (0:ℕ) = 1) ∧
    (86402:ℕ) = 2500 / 1000 + 86400 ∧
    polymarketDomain = ⟨"Polymarket CTF Exchange", "1", 137, CTF_EXCHANGE⟩ :=
  C6_fixed_structural_fields ⟨"T6", .BUY, 65/100, 10, "0xD", some 99⟩ 11 2500
    ⟨11, "0xD", "0xD", ZERO_ADDRESS, "T6", 10000000, 15384615, 86402, 99,
     0, 0, 0⟩
    polymarketDomain orderTypeSchema
    (by simp only [buildPolymarketOrder, parseUnits6, round6]
        norm_num [round_eq])

/-! ### C10: nonce 0 is not preserved -/

/-- C10 (confirmed): the built order's nonce equals the supplied nonce
only when that nonce is nonzero; both when the nonce argument is absent
and when it is 0, the order's nonce is the current wall-clock timestamp
(`nonce || Date.now()` treats 0 as falsy). -/
theorem C10_nonce_fallback :
    ∀ (p : OrderParams) (salt n : ℤ) (nowMs : ℕ) (ord : BuiltOrder)
      (dom : SigningDomain) (ts : List (String × String)),
      buildPolymarketOrder p salt nowMs = some (ord, dom, ts) →
      (p.nonce = some n → n ≠ 0 → ord.nonce = n) ∧
      (p.nonce = some 0 → ord.nonce = (nowMs : ℤ)) ∧
      (p.nonce = none → ord.nonce = (nowMs : ℤ)) := by
  intro p salt n nowMs ord dom ts h
  obtain ⟨_, _, _, _, _, _, _, _, hnonce, _, _, _, _, _, _⟩ :=
    buildPolymarketOrder_inv p salt nowMs ord dom ts h
  refine ⟨?_, ?_, ?_⟩
  · intro hn hne
    rw [hnonce, hn]
    simp [hne]
  · intro hn
    rw [hnonce, hn]
    simp
  · intro hn
    rw [hnonce, hn]

/-- C10 witness: the theorem applied to a SELL order built with supplied
nonce 0 at build time 777 ms — its nonce is 777, not 0. -/
theorem C10_nonce_fallback_witness :
    ((some (0:ℤ) : Option ℤ) = some 5 → (5:ℤ) ≠ 0 → (777:ℤ) = 5) ∧
    ((some (0:ℤ) : Option ℤ) = some 0 → (777:ℤ) = (777:ℕ)) ∧
    ((some (0:ℤ) : Option ℤ) = none → (777:ℤ) = (777:ℕ)) :=
  C10_nonce_fallback ⟨"TX", .SELL, 7/10, 20, "0xE", some 0⟩ 1 5 777
    ⟨1, "0xE", "0xE", ZERO_ADDRESS, "TX", 20000000, 14000000, 86400, 777,
     0, 1, 0⟩
    polymarketDomain orderTypeSchema
    (by simp only [buildPolymarketOrder, parseUnits6, round6]
        norm_num [round_eq])

/-! ### C7: credential resolution order and (non-)idempotence -/

/-- C7 counterexample: starting with no environment credentials and no
cached per-user credentials, two credential resolutions for the same
identity perform two credential-creation network calls, not at most one —
the first call's created credentials are written to no cache, so the
second call cannot hit one. -/
theorem C7_counterexample :
    resolveApiCredentialsTwice none none
      (.ok ⟨some "k", some "s", some "p"⟩)
      (.ok ⟨some "k", some "s", some "p"⟩) = 2 := by
  simp [resolveApiCredentialsTwice, resolveApiCredentials]

/-- C7 (amended): within one call, resolution prefers environment-level
credentials, else complete cached per-user credentials, else creates new
credentials via the exchange; but created credentials are cached nowhere,
so a second resolution for the same identity starting with no prior
credentials performs a second creation call — two calls in total, never
a cache hit. -/
theorem C7_credential_resolution :
    (∀ (e : ApiCreds) (up : Option UserParams)
       (cr : Except String RawApiKeyResponse),
      resolveApiCredentials (some e) up cr = (.ok e, false)) ∧
    (∀ (k s p : String) (cr : Except String RawApiKeyResponse),
      resolveApiCredentials none (some ⟨some k, some s, some p⟩) cr =
        (.ok ⟨k, s, p⟩, false)) ∧
    (∀ (k s p : String),
      resolveApiCredentials none none (.ok ⟨some k, some s, some p⟩) =
        (.ok ⟨k, s, p⟩, true)) ∧
    (∀ (c1 c2 : Except String RawApiKeyResponse),
      resolveApiCredentialsTwice none none c1 c2 = 2) := by
  have hflag : ∀ (cr : Except String RawApiKeyResponse),
      (resolveApiCredentials none none cr).2 = true := by
    intro cr
    cases cr with
    | error e => rfl
    | ok raw =>
      obtain ⟨k, s, p⟩ := raw
      cases k <;> cases s <;> cases p <;> rfl
  refine ⟨fun e up cr => rfl, fun k s p cr => rfl, fun k s p => rfl, ?_⟩
  intro c1 c2
  simp [resolveApiCredentialsTwice, hflag]

/-! ### C8: the state machine and price validation -/

/-- C8 counterexample: an intent with price 1.0 (outside [0.01, 0.99])
handed to execute is not rejected anywhere: with environment credentials
available and the exchange accepting, the intent reaches the submission
call (second component) and the trade succeeds — precheck is never
invoked on the execute path. -/
theorem C8_counterexample :
    ((1:ℚ) > 99/100) ∧
    polymarketTradeExecute ⟨"T1", .BUY, 1, 10⟩ (some ⟨"k", "s", "p"⟩) none
      (.ok ⟨none, none, none⟩) (.ok "OID") =
      (⟨true, some "OID", none⟩, some ⟨"T1", 1, 10, .BUY⟩) := by
  refine ⟨by norm_num, ?_⟩
  simp [polymarketTradeExecute, resolveApiCredentials]

/-- C8 (amended): price-range validation lives only in the precheck:
`polymarketTradePrecheck` rejects any price outside [0.01, 0.99] (after
the balance and allowance comparisons pass), but `polymarketTradeExecute`
performs no price validation and does not invoke the precheck — its
outcome is identical under any substituted price — so an out-of-range
intent is stopped only when the caller runs precheck first. -/
theorem C8_price_validation_only_in_precheck :
    (∀ (ap : AbilityParams) (b a : ℚ),
      ap.amount ≤ b → ap.amount ≤ a →
      (ap.price < 1/100 ∨ ap.price > 99/100) →
      polymarketTradePrecheck ap (.ok b) (.ok a) =
        ⟨false, some .priceOutOfRange, none⟩) ∧
    (∀ (ap : AbilityParams) (q : ℚ) (env : Option ApiCreds)
       (up : Option UserParams) (cr : Except String RawApiKeyResponse)
       (post : Except String String),
      (polymarketTradeExecute ap env up cr post).1 =
        (polymarketTradeExecute ⟨ap.tokenId, ap.side, q, ap.amount⟩
          env up cr post).1) := by
  refine ⟨?_, ?_⟩
  · intro ap b a hb ha hp
    simp only [polymarketTradePrecheck]
    rw [if_neg (not_lt.mpr hb), if_neg (not_lt.mpr ha), if_pos hp]
  · intro ap q env up cr post
    rcases hres : (resolveApiCredentials env up cr).1 with e | c <;>
      cases post <;> simp [polymarketTradeExecute, hres]

/-- C8 witness: the amended theorem applied at price 1.0 with balance and
allowance 20 against amount 10. -/
theorem C8_price_validation_only_in_precheck_witness :
    polymarketTradePrecheck ⟨"T", .BUY, 1, 10⟩ (.ok 20) (.ok 20) =
      ⟨false, some .priceOutOfRange, none⟩ :=
  C8_price_validation_only_in_precheck.1 ⟨"T", .BUY, 1, 10⟩ 20 20
    (by norm_num) (by norm_num) (Or.inr (by norm_num))

/-! ### C9: ledger status transitions -/

/-- C9 counterexample: a trade created as 'pending' and marked 'failed'
is flipped to 'confirmed' by a later `updateOrderId` — the ledger imposes
no terminal-once rule. -/
theorem C9_counterexample :
    ((tradeGetById (tradeMarkFailed
        (tradeCreate [] 1 "M" "T" .BUY 10 1 20).1 1 "submit error")
        1).map (fun r => r.status) = some .failed) ∧
    ((tradeGetById (tradeUpdateOrderId (tradeMarkFailed
        (tradeCreate [] 1 "M" "T" .BUY 10 1 20).1 1 "submit error")
        1 "OID") 1).map (fun r => r.status) = some .confirmed) := by
  constructor <;>
    simp [tradeCreate, tradeMarkFailed, tradeUpdateOrderId, tradeGetById]

/-- C9 (amended): records are created with status 'pending', but the
ledger's mutation operations are unconditional: `updateOrderId` and
`updateTxHash` always set the matching record to 'confirmed' and
`markFailed` always sets it to 'failed', whatever status — pending or
terminal — it had before; exactly-once terminal mutation is caller
discipline, not a ledger guarantee. -/
theorem C9_ledger_status_transitions :
    (∀ (s : List TradeRow) (u : ℕ) (m t : String) (sd : Side)
       (a pr sh : ℚ),
      ((tradeCreate s u m t sd a pr sh).2).status = .pending) ∧
    (∀ (s : List TradeRow) (tradeId : ℕ) (oid : String) (r : TradeRow),
      r ∈ tradeUpdateOrderId s tradeId oid → r.id = tradeId →
      r.status = .confirmed) ∧
    (∀ (s : List TradeRow) (tradeId : ℕ) (tx : String) (r : TradeRow),
      r ∈ tradeUpdateTxHash s tradeId tx → r.id = tradeId →
      r.status = .confirmed) ∧
    (∀ (s : List TradeRow) (tradeId : ℕ) (msg : String) (r : TradeRow),
      r ∈ tradeMarkFailed s tradeId msg → r.id = tradeId →
      r.status = .failed) := by
  refine ⟨fun s u m t sd a pr sh => rfl, ?_, ?_, ?_⟩ <;>
  · intro s tradeId arg r hmem hid
    obtain ⟨r0, _, hr⟩ := List.mem_map.mp hmem
    by_cases h0 : r0.id = tradeId
    · rw [if_pos h0] at hr
      rw [← hr]
    · rw [if_neg h0] at hr
      rw [← hr] at hid
      exact absurd hid h0

/-- C9 witness: the amended theorem applied to a creation and to an
`updateOrderId` on a previously failed record. -/
theorem C9_ledger_status_transitions_witness :
    (((tradeCreate [] 7 "M" "T" .SELL 5 1 5).2).status = .pending) ∧
    ((⟨1, 1, "M", "T", Side.BUY, 10, 1, 20, some "OID", none,
        .confirmed, some "err"⟩ : TradeRow).status = .confirmed) :=
  ⟨C9_ledger_status_transitions.1 [] 7 "M" "T" .SELL 5 1 5,
   C9_ledger_status_transitions.2.1
     [⟨1, 1, "M", "T", Side.BUY, 10, 1, 20, none, none, .failed, some "err"⟩]
     1 "OID"
     ⟨1, 1, "M", "T", Side.BUY, 10, 1, 20, some "OID", none,
       .confirmed, some "err"⟩
     (by simp [tradeUpdateOrderId]) rfl⟩
